import Mathlib

/-!
Shallow embedding of the Go package `verify` (quriobot/go-rest-api,
src/verify/verify.go): the request builder `requestDataForVerify`, the
response decoder `Verify.UnmarshalJSON`, and the five facade operations
`Create`, `Read`, `Delete`, `VerifyToken`, `ReadVerifyEmailMessage`.

Modelling conventions:
- A dynamic JSON value (Go `interface{}` after `encoding/json` decoding)
  is the inductive `JsonValue`.  A JSON number is carried by its exact
  integer value (the payloads of interest are phone numbers); the float64
  parse that `encoding/json` performs is modelled by `float64RoundInt`,
  the exact round-to-nearest-even of an integer to 53 significant bits.
- Errors are their Go message strings; fallible code returns `Except`.
- The injected transport collaborator `messagebird.Client.Request` is an
  abstract function from the issued HTTP call to a decoded result or an
  error; each operation also returns the list of calls it issued.
-/

namespace verify

/-- Dynamic JSON value, the result of decoding into a Go `interface{}`
field: `null` is both JSON null and an absent field (the zero value of
the interface), numbers carry their exact integer value. -/
inductive JsonValue where
  | null
  | bool (b : Bool)
  | num (n : Int)
  | str (s : String)
  | arr (xs : List JsonValue)
  | obj (fields : List (String × JsonValue))

/-- The string that the Go `%T` verb prints for the dynamic type of an
`interface{}` holding a decoded JSON value. -/
def JsonValue.goTypeName : JsonValue → String
  | .null => "<nil>"
  | .bool _ => "bool"
  | .num _ => "float64"
  | .str _ => "string"
  | .arr _ => "[]interface \x7b\x7d"
  | .obj _ => "map[string]interface \x7b\x7d"

/-- Whether a dynamic JSON value would be consumed by the `float64` or
`string` case of the type switch in `Verify.UnmarshalJSON`. -/
def JsonValue.isNumOrStr : JsonValue → Bool
  | .num _ => true
  | .str _ => true
  | _ => false

/-- Number of low bits dropped when rounding `m` to 53 significant bits
(0 when `m < 2 ^ 53` already fits).  Fuel-based recursion so that it
reduces inside the kernel. -/
def dropBitsAux : Nat → Nat → Nat
  | 0, _ => 0
  | fuel + 1, m => if m < 2 ^ 53 then 0 else dropBitsAux fuel (m / 2) + 1

def dropBits (m : Nat) : Nat := dropBitsAux m m

/-- Round a natural number to 53 significant bits, ties to even: the
value of the nearest binary64 float (for inputs below the float64
overflow threshold, far beyond any JSON payload of interest). -/
def roundSig53 (m : Nat) : Nat :=
  let k := dropBits m
  if k = 0 then m
  else
    let q := m / 2 ^ k
    let r := m % 2 ^ k
    let half := 2 ^ (k - 1)
    if r < half then q * 2 ^ k
    else if half < r then (q + 1) * 2 ^ k
    else if q % 2 = 0 then q * 2 ^ k else (q + 1) * 2 ^ k

/-- The integer value of the binary64 float that `encoding/json` produces
when parsing an integer JSON number `n` (round to nearest, ties to even). -/
def float64RoundInt (n : Int) : Int :=
  if n < 0 then -(roundSig53 n.natAbs : Int) else (roundSig53 n.natAbs : Int)

/-- Models `strconv.FormatFloat(v, 'f', -1, 64)` on an integer-valued
float64 `v`: for `|v| < 2 ^ 54` (ulp at most 2) the shortest uniquely
identifying decimal in positional notation is exactly the decimal digit
string of `v`, which is what this returns. -/
def formatFloat (v : Int) : String := Int.repr v

/-- Go struct `Verify` (the decoded verification result). -/
structure Verify where
  ID : String := ""
  HRef : String := ""
  Reference : String := ""
  Status : String := ""
  Messages : List (String × String) := []
  CreatedDatetime : Option String := none
  ValidUntilDatetime : Option String := none
  Recipient : String := ""

/-- Go struct `VerifyMessage`. -/
structure VerifyMessage where
  id : String := ""
  status : String := ""

/-- The anonymous wrapper struct inside `Verify.UnmarshalJSON` after
`json.Unmarshal`: the embedded `Alias` fields decode structurally (the
two timestamps are kept as their raw wire strings), while the shadowing
`Recipient interface{}` field holds the dynamic JSON value of the
payload `recipient` field (`.null` when the field is absent or JSON null). -/
structure verifyWrapper where
  ID : String := ""
  HRef : String := ""
  Reference : String := ""
  Status : String := ""
  Messages : List (String × String) := []
  CreatedDatetime : Option String := none
  ValidUntilDatetime : Option String := none
  Recipient : JsonValue := .null

/-- The final `*v = Verify(wrapper.Alias)` after
`wrapper.Alias.Recipient` has been set to the normalized string. -/
def verifyWrapper.toVerify (w : verifyWrapper) (recipient : String) : Verify :=
  { ID := w.ID, HRef := w.HRef, Reference := w.Reference, Status := w.Status,
    Messages := w.Messages, CreatedDatetime := w.CreatedDatetime,
    ValidUntilDatetime := w.ValidUntilDatetime, Recipient := recipient }

/-- Go method `(v *Verify) UnmarshalJSON(b []byte) error`.  The receiver
is `Option Verify` (`none` models a nil pointer); the payload is given
in its decoded wrapper form. -/
def Verify.unmarshalJSON (v : Option Verify) (w : verifyWrapper) : Except String Verify :=
  match v with
  | none => Except.error "cannot unmarshal to nil pointer"
  | some _ =>
    match w.Recipient with
    | JsonValue.num n => Except.ok (w.toVerify (formatFloat (float64RoundInt n)))
    | JsonValue.str s => Except.ok (w.toVerify s)
    | other => Except.error ("recipient is unknown type " ++ other.goTypeName)

/-- Go struct `Params` (optional verification parameters). -/
structure Params where
  Originator : String := ""
  Reference : String := ""
  Type_ : String := ""
  Template : String := ""
  DataCoding : String := ""
  ReportURL : String := ""
  Voice : String := ""
  Language : String := ""
  Timeout : Int := 0
  TokenLength : Int := 0
  Subject : String := ""

/-- Go struct `verifyRequest` (the wire request body). -/
structure verifyRequest where
  Recipient : String := ""
  Originator : String := ""
  Reference : String := ""
  Type_ : String := ""
  Template : String := ""
  DataCoding : String := ""
  ReportURL : String := ""
  Voice : String := ""
  Language : String := ""
  Timeout : Int := 0
  TokenLength : Int := 0
  Subject : String := ""

/-- One `name,omitempty`-tagged string field of `verifyRequest`:
present on the wire exactly when non-empty. -/
def optField (name value : String) : List (String × JsonValue) :=
  if value = "" then [] else [(name, JsonValue.str value)]

/-- One `name,omitempty`-tagged int field of `verifyRequest`:
present on the wire exactly when non-zero. -/
def optIntField (name : String) (value : Int) : List (String × JsonValue) :=
  if value = 0 then [] else [(name, JsonValue.num value)]

/-- The JSON object `encoding/json` marshals a `verifyRequest` to, as an
ordered field list, following the struct tags of verify.go lines 47-60. -/
def verifyRequest.marshalJSON (r : verifyRequest) : List (String × JsonValue) :=
  ("recipient", JsonValue.str r.Recipient) ::
    (optField "originator" r.Originator ++ optField "reference" r.Reference ++
     optField "type" r.Type_ ++ optField "template" r.Template ++
     optField "dataCoding" r.DataCoding ++ optField "reportUrl" r.ReportURL ++
     optField "voice" r.Voice ++ optField "language" r.Language ++
     optIntField "timeout" r.Timeout ++ optIntField "tokenLength" r.TokenLength ++
     optField "subject" r.Subject)

/-- Go function `requestDataForVerify`. -/
def requestDataForVerify (recipient : String) (params : Option Params) :
    Except String verifyRequest :=
  if recipient = "" then Except.error "recipient is required"
  else
    match params with
    | none => Except.ok { Recipient := recipient }
    | some p =>
      Except.ok { Recipient := recipient, Originator := p.Originator,
                  Reference := p.Reference, Type_ := p.Type_, Template := p.Template,
                  DataCoding := p.DataCoding, ReportURL := p.ReportURL, Voice := p.Voice,
                  Language := p.Language, Timeout := p.Timeout,
                  TokenLength := p.TokenLength, Subject := p.Subject }

/-- One HTTP exchange handed to the transport collaborator: method,
resource path, and optional request body. -/
structure HttpCall where
  method : String
  path : String
  body : Option verifyRequest

/-- Go constant `path`. -/
def path : String := "verify"

/-- Go constant `emailMessagesPath`. -/
def emailMessagesPath : String := path ++ "/messages/email"

/-- Go function `Create`: the transport collaborator
`messagebird.Client.Request` is the abstract `request`; the returned
list records the calls issued, in order. -/
def Create (request : HttpCall → Except String Verify) (recipient : String)
    (params : Option Params) : Except String Verify × List HttpCall :=
  match requestDataForVerify recipient params with
  | Except.error e => (Except.error e, [])
  | Except.ok requestData =>
    let call : HttpCall := ⟨"POST", path, some requestData⟩
    match request call with
    | Except.error e => (Except.error e, [call])
    | Except.ok verify => (Except.ok verify, [call])

/-- Go function `Delete` (nil decode target, nil body). -/
def Delete (request : HttpCall → Except String Unit) (id : String) :
    Except String Unit × List HttpCall :=
  let call : HttpCall := ⟨"DELETE", path ++ "/" ++ id, none⟩
  (request call, [call])

/-- Go function `Read`. -/
def Read (request : HttpCall → Except String Verify) (id : String) :
    Except String Verify × List HttpCall :=
  let call : HttpCall := ⟨"GET", path ++ "/" ++ id, none⟩
  match request call with
  | Except.error e => (Except.error e, [call])
  | Except.ok verify => (Except.ok verify, [call])

/-- Uppercase hexadecimal digit for `n < 16`. -/
def hexUpper (n : Nat) : Char :=
  if n < 10 then Char.ofNat (48 + n) else Char.ofNat (55 + n)

/-- Percent-encoding of one byte, uppercase hex, as the Go net/url package emits. -/
def percentEncodeByte (b : Nat) : String :=
  String.mk ['%', hexUpper (b / 16), hexUpper (b % 16)]

/-- The UTF-8 bytes of one character (Go strings are byte strings; the
escaper works byte by byte). -/
def utf8Bytes (c : Char) : List Nat :=
  let n := c.toNat
  if n < 128 then [n]
  else if n < 2048 then [192 + n / 64, 128 + n % 64]
  else if n < 65536 then [224 + n / 4096, 128 + n / 64 % 64, 128 + n % 64]
  else [240 + n / 262144, 128 + n / 4096 % 64, 128 + n / 64 % 64, 128 + n % 64]

/-- The bytes that the Go net/url package leaves unescaped in a query component:
ASCII alphanumerics and `-`, `_`, `.`, `~`. -/
def isQueryUnreserved (c : Char) : Bool :=
  (65 ≤ c.toNat && c.toNat ≤ 90) || (97 ≤ c.toNat && c.toNat ≤ 122) ||
  (48 ≤ c.toNat && c.toNat ≤ 57) || c = '-' || c = '_' || c = '.' || c = '~'

/-- Go `url.QueryEscape` on one character. -/
def queryEscapeChar (c : Char) : String :=
  if isQueryUnreserved c then String.singleton c
  else if c = ' ' then "+"
  else String.join ((utf8Bytes c).map percentEncodeByte)

/-- Go `url.QueryEscape`. -/
def queryEscape (s : String) : String :=
  String.join (s.toList.map queryEscapeChar)

/-- Go `url.Values.Encode()` for a Values holding the single pair
`key -> value`, as built by `params.Set(key, value)` in `VerifyToken`:
both key and value are query-escaped. -/
def urlValuesEncode (key value : String) : String :=
  queryEscape key ++ "=" ++ queryEscape value

/-- Go function `VerifyToken`. -/
def VerifyToken (request : HttpCall → Except String Verify) (id token : String) :
    Except String Verify × List HttpCall :=
  let pathWithParams := path ++ "/" ++ id ++ "?" ++ urlValuesEncode "token" token
  let call : HttpCall := ⟨"GET", pathWithParams, none⟩
  match request call with
  | Except.error e => (Except.error e, [call])
  | Except.ok verify => (Except.ok verify, [call])

/-- Go function `ReadVerifyEmailMessage`. -/
def ReadVerifyEmailMessage (request : HttpCall → Except String VerifyMessage)
    (id : String) : Except String VerifyMessage × List HttpCall :=
  let messagePath := emailMessagesPath ++ "/" ++ id
  let call : HttpCall := ⟨"GET", messagePath, none⟩
  match request call with
  | Except.error e => (Except.error e, [call])
  | Except.ok m => (Except.ok m, [call])

end verify

/-! Helper lemmas (shared). -/

namespace verify

theorem dropBitsAux_of_lt (fuel m : Nat) (h : m < 2 ^ 53) : dropBitsAux fuel m = 0 := by
  have h2 : m < 9007199254740992 := by omega
  cases fuel <;> simp [dropBitsAux, h2]

theorem roundSig53_of_le (m : Nat) (h : m ≤ 2 ^ 53) : roundSig53 m = m := by
  rcases Nat.lt_or_ge m (2 ^ 53) with hlt | hge
  · simp [roundSig53, dropBits, dropBitsAux_of_lt m m hlt]
  · have hm : m = 2 ^ 53 := Nat.le_antisymm h hge
    subst hm
    decide

theorem float64RoundInt_of_le (n : Int) (h : n.natAbs ≤ 2 ^ 53) : float64RoundInt n = n := by
  unfold float64RoundInt
  rw [roundSig53_of_le n.natAbs h]
  split <;> omega

theorem lookup_cons_self (a : String) (b : JsonValue) (l : List (String × JsonValue)) :
    ((a, b) :: l).lookup a = some b := by
  simp [List.lookup]

theorem lookup_cons_ne (k a : String) (b : JsonValue) (l : List (String × JsonValue))
    (h : (k == a) = false) : ((a, b) :: l).lookup k = l.lookup k := by
  simp [List.lookup, h]

theorem lookup_optField_ne (k name value : String) (l : List (String × JsonValue))
    (h : (k == name) = false) : (optField name value ++ l).lookup k = l.lookup k := by
  unfold optField
  split <;> simp [List.lookup, h]

theorem lookup_optField_self (name value : String) (l : List (String × JsonValue)) :
    (optField name value ++ l).lookup name
      = if value = "" then l.lookup name else some (JsonValue.str value) := by
  unfold optField
  split <;> rename_i hv <;> simp [List.lookup, hv]

theorem lookup_optIntField_ne (k name : String) (value : Int) (l : List (String × JsonValue))
    (h : (k == name) = false) : (optIntField name value ++ l).lookup k = l.lookup k := by
  unfold optIntField
  split <;> simp [List.lookup, h]

theorem lookup_optIntField_self (name : String) (value : Int) (l : List (String × JsonValue)) :
    (optIntField name value ++ l).lookup name
      = if value = 0 then l.lookup name else some (JsonValue.num value) := by
  unfold optIntField
  split <;> rename_i hv <;> simp [List.lookup, hv]

theorem lookup_optField_final_ne (k name value : String) (h : (k == name) = false) :
    (optField name value).lookup k = none := by
  unfold optField
  split <;> simp [List.lookup, h]

theorem lookup_optField_final_self (name value : String) :
    (optField name value).lookup name
      = if value = "" then none else some (JsonValue.str value) := by
  unfold optField
  split <;> rename_i hv <;> simp [List.lookup, hv]

end verify

/-! Claim theorems. -/

namespace verify

/-- C1 (amended): for every payload whose `recipient` field is a JSON
number whose value is an integer of magnitude at most `2 ^ 53` (the
integers binary64 represents exactly), decoding succeeds and sets
`Recipient` to the exact decimal digit string of that integer, with no
exponent and no decimal point; in particular the JSON number 31612345678
decodes to Recipient == "31612345678".  (The unamended claim, quantified
over all JSON numbers, fails: see the counterexample at `2 ^ 53 + 1`,
where the float64 parse inside `encoding/json` already rounds.) -/
theorem C1_claim (w : verifyWrapper) (t : Verify) (n : Int)
    (hn : w.Recipient = JsonValue.num n) (hb : n.natAbs ≤ 2 ^ 53) :
    Verify.unmarshalJSON (some t) w = Except.ok (w.toVerify (formatFloat n)) := by
  simp only [Verify.unmarshalJSON]
  rw [hn]
  show Except.ok (w.toVerify (formatFloat (float64RoundInt n))) = _
  rw [float64RoundInt_of_le n hb]

/-- C1 witness: the JSON number 31612345678 decodes to the string
"31612345678". -/
theorem C1_witness :
    Verify.unmarshalJSON (some {}) { Recipient := JsonValue.num 31612345678 }
      = Except.ok { Recipient := "31612345678" } :=
  C1_claim { Recipient := JsonValue.num 31612345678 } {} 31612345678 rfl (by decide)

/-- C1 counterexample: a payload whose `recipient` is the JSON number
9007199254740993 (= 2 ^ 53 + 1) decodes successfully but to the string
"9007199254740992": the float64 value that `encoding/json` hands the
type switch has already been rounded to the nearest even significand, so
the result is not the decimal form of the payload number with full
precision, refuting the claim as stated. -/
theorem C1_counterexample :
    Verify.unmarshalJSON (some {}) { Recipient := JsonValue.num 9007199254740993 }
      = Except.ok { Recipient := "9007199254740992" } ∧
    "9007199254740992" ≠ "9007199254740993" :=
  ⟨rfl, by decide⟩

/-- C2: for every payload whose `recipient` field is a JSON string `s`,
decoding succeeds and sets `Recipient` to exactly `s`, unchanged, with
every other field mapped structurally. -/
theorem C2_claim (w : verifyWrapper) (t : Verify) (s : String)
    (hs : w.Recipient = JsonValue.str s) :
    Verify.unmarshalJSON (some t) w = Except.ok (w.toVerify s) := by
  simp only [Verify.unmarshalJSON]
  rw [hs]

/-- C2 witness: the JSON string "31612345678" decodes to itself. -/
theorem C2_witness :
    Verify.unmarshalJSON (some {}) { Recipient := JsonValue.str "31612345678" }
      = Except.ok { Recipient := "31612345678" } :=
  C2_claim { Recipient := JsonValue.str "31612345678" } {} "31612345678" rfl

/-- C3: for every payload whose `recipient` field is neither a JSON
number nor a JSON string (boolean, array, object, or null), decoding
fails with a type error naming the actual runtime type of the value. -/
theorem C3_claim (w : verifyWrapper) (t : Verify)
    (h : w.Recipient.isNumOrStr = false) :
    Verify.unmarshalJSON (some t) w
      = Except.error ("recipient is unknown type " ++ w.Recipient.goTypeName) := by
  simp only [Verify.unmarshalJSON]
  cases hr : w.Recipient <;> simp_all [JsonValue.isNumOrStr, JsonValue.goTypeName]

/-- C3 witness: a JSON boolean recipient is rejected with a type error
naming the runtime type `bool`. -/
theorem C3_witness :
    (JsonValue.bool true).isNumOrStr = false ∧
    Verify.unmarshalJSON (some {}) { Recipient := JsonValue.bool true }
      = Except.error "recipient is unknown type bool" :=
  ⟨rfl, C3_claim { Recipient := JsonValue.bool true } {} rfl⟩

/-- C4: for every payload, decoding into a nil target pointer fails
immediately with the explicit nil-pointer error, before the payload is
inspected at all. -/
theorem C4_claim (w : verifyWrapper) :
    Verify.unmarshalJSON none w = Except.error "cannot unmarshal to nil pointer" := rfl

/-- C5: for every transport and every params value, `Create` with the
empty recipient returns the validation error "recipient is required",
carries no result, and issues no transport call at all. -/
theorem C5_claim (request : HttpCall → Except String Verify) (params : Option Params) :
    Create request "" params = (Except.error "recipient is required", []) := rfl

/-- C6: for every non-empty recipient `r` and nil params, the request
builder succeeds with a request whose only set field is the recipient,
the serialized JSON form of that request is exactly the one-field object
recipient = r, and `Create` issues a POST to the path `verify` carrying
that request as its body. -/
theorem C6_claim (request : HttpCall → Except String Verify) (r : String) (hr : r ≠ "") :
    requestDataForVerify r none = Except.ok { Recipient := r } ∧
    verifyRequest.marshalJSON { Recipient := r } = [("recipient", JsonValue.str r)] ∧
    (Create request r none).2 = [⟨"POST", "verify", some { Recipient := r }⟩] := by
  refine ⟨?_, rfl, ?_⟩
  · simp [requestDataForVerify, hr]
  · simp only [Create, requestDataForVerify, if_neg hr]
    cases h : request ⟨"POST", path, some { Recipient := r }⟩ <;> simp [h, path]

/-- C6 witness: Create("31612345678", nil) POSTs the one-field body
to `verify`. -/
theorem C6_witness :
    requestDataForVerify "31612345678" none = Except.ok { Recipient := "31612345678" } ∧
    verifyRequest.marshalJSON { Recipient := "31612345678" }
      = [("recipient", JsonValue.str "31612345678")] ∧
    (Create (fun _ => Except.ok {}) "31612345678" none).2
      = [⟨"POST", "verify", some { Recipient := "31612345678" }⟩] :=
  C6_claim (fun _ => Except.ok {}) "31612345678" (by decide)

/-- C7: for every non-empty recipient and every params value, the
request builder copies all eleven optional fields verbatim into the
request, and in the serialized JSON form each optional field appears
under its camelCase wire name exactly when its value is not the empty
string or zero, holding that verbatim value. -/
theorem C7_claim (r : String) (p : Params) (hr : r ≠ "") :
    ∃ req : verifyRequest,
      requestDataForVerify r (some p) = Except.ok req ∧
      req.Recipient = r ∧ req.Originator = p.Originator ∧ req.Reference = p.Reference ∧
      req.Type_ = p.Type_ ∧ req.Template = p.Template ∧ req.DataCoding = p.DataCoding ∧
      req.ReportURL = p.ReportURL ∧ req.Voice = p.Voice ∧ req.Language = p.Language ∧
      req.Timeout = p.Timeout ∧ req.TokenLength = p.TokenLength ∧ req.Subject = p.Subject ∧
      req.marshalJSON.lookup "recipient" = some (JsonValue.str r) ∧
      req.marshalJSON.lookup "originator"
        = (if p.Originator = "" then none else some (JsonValue.str p.Originator)) ∧
      req.marshalJSON.lookup "reference"
        = (if p.Reference = "" then none else some (JsonValue.str p.Reference)) ∧
      req.marshalJSON.lookup "type"
        = (if p.Type_ = "" then none else some (JsonValue.str p.Type_)) ∧
      req.marshalJSON.lookup "template"
        = (if p.Template = "" then none else some (JsonValue.str p.Template)) ∧
      req.marshalJSON.lookup "dataCoding"
        = (if p.DataCoding = "" then none else some (JsonValue.str p.DataCoding)) ∧
      req.marshalJSON.lookup "reportUrl"
        = (if p.ReportURL = "" then none else some (JsonValue.str p.ReportURL)) ∧
      req.marshalJSON.lookup "voice"
        = (if p.Voice = "" then none else some (JsonValue.str p.Voice)) ∧
      req.marshalJSON.lookup "language"
        = (if p.Language = "" then none else some (JsonValue.str p.Language)) ∧
      req.marshalJSON.lookup "timeout"
        = (if p.Timeout = 0 then none else some (JsonValue.num p.Timeout)) ∧
      req.marshalJSON.lookup "tokenLength"
        = (if p.TokenLength = 0 then none else some (JsonValue.num p.TokenLength)) ∧
      req.marshalJSON.lookup "subject"
        = (if p.Subject = "" then none else some (JsonValue.str p.Subject)) := by
  refine ⟨{ Recipient := r, Originator := p.Originator, Reference := p.Reference,
            Type_ := p.Type_, Template := p.Template, DataCoding := p.DataCoding,
            ReportURL := p.ReportURL, Voice := p.Voice, Language := p.Language,
            Timeout := p.Timeout, TokenLength := p.TokenLength, Subject := p.Subject },
         ?_, rfl, rfl, rfl, rfl, rfl, rfl, rfl, rfl, rfl, rfl, rfl, rfl,
         ?_, ?_, ?_, ?_, ?_, ?_, ?_, ?_, ?_, ?_, ?_, ?_⟩
  · simp [requestDataForVerify, hr]
  all_goals
    simp [verifyRequest.marshalJSON, lookup_cons_self, lookup_cons_ne,
      lookup_optField_ne, lookup_optField_self, lookup_optIntField_ne,
      lookup_optIntField_self, lookup_optField_final_ne, lookup_optField_final_self]

/-- C7 witness: with originator, reference and timeout set and the other
optional fields at their zero values, exactly those three optional
fields appear on the wire, verbatim. -/
theorem C7_witness :
    ∃ req : verifyRequest,
      requestDataForVerify "31612345678"
          (some { Originator := "CompanyX", Reference := "ref1", Timeout := 30 })
        = Except.ok req ∧
      req.Recipient = "31612345678" ∧ req.Originator = "CompanyX" ∧ req.Reference = "ref1" ∧
      req.Type_ = "" ∧ req.Template = "" ∧ req.DataCoding = "" ∧
      req.ReportURL = "" ∧ req.Voice = "" ∧ req.Language = "" ∧
      req.Timeout = 30 ∧ req.TokenLength = 0 ∧ req.Subject = "" ∧
      req.marshalJSON.lookup "recipient" = some (JsonValue.str "31612345678") ∧
      req.marshalJSON.lookup "originator" = some (JsonValue.str "CompanyX") ∧
      req.marshalJSON.lookup "reference" = some (JsonValue.str "ref1") ∧
      req.marshalJSON.lookup "type" = none ∧
      req.marshalJSON.lookup "template" = none ∧
      req.marshalJSON.lookup "dataCoding" = none ∧
      req.marshalJSON.lookup "reportUrl" = none ∧
      req.marshalJSON.lookup "voice" = none ∧
      req.marshalJSON.lookup "language" = none ∧
      req.marshalJSON.lookup "timeout" = some (JsonValue.num 30) ∧
      req.marshalJSON.lookup "tokenLength" = none ∧
      req.marshalJSON.lookup "subject" = none :=
  C7_claim "31612345678" { Originator := "CompanyX", Reference := "ref1", Timeout := 30 }
    (by decide)

/-- C8: for every id and token, `VerifyToken` issues exactly one GET to
the path verify/id?token=tok with no body, where tok is the URL-encoded
token; in particular with id "abc" and token "1234" the path is
verify/abc?token=1234. -/
theorem C8_claim (request : HttpCall → Except String Verify) (id token : String) :
    (VerifyToken request id token).2
      = [⟨"GET", "verify/" ++ id ++ "?token=" ++ queryEscape token, none⟩] ∧
    (VerifyToken request "abc" "1234").2 = [⟨"GET", "verify/abc?token=1234", none⟩] := by
  have hgen : ∀ i tok, (VerifyToken request i tok).2
      = [⟨"GET", path ++ "/" ++ i ++ "?" ++ urlValuesEncode "token" tok, none⟩] := by
    intro i tok
    simp only [VerifyToken]
    cases h : request ⟨"GET", path ++ "/" ++ i ++ "?" ++ urlValuesEncode "token" tok, none⟩ <;>
      simp [h]
  constructor
  · rw [hgen id token]
    have h1 : path ++ "/" ++ id ++ "?" ++ urlValuesEncode "token" token
        = "verify/" ++ id ++ "?token=" ++ queryEscape token := by
      unfold urlValuesEncode
      rw [show queryEscape "token" = "token" from rfl, show path = "verify" from rfl]
      rw [← String.append_assoc ("verify" ++ "/" ++ id ++ "?") ("token" ++ "=")
            (queryEscape token)]
      rw [String.append_assoc ("verify" ++ "/" ++ id) "?" ("token" ++ "=")]
      rfl
    rw [h1]
  · rw [hgen "abc" "1234"]
    rfl

/-- C9: whenever the transport collaborator returns an error `e` for the
one call an operation issues, that operation returns exactly `e`, with
no result value, no retry (the call list stays a single call, or empty
before the transport for a builder failure) and no rewriting, for each
of Create, Read, Delete, VerifyToken and ReadVerifyEmailMessage. -/
theorem C9_claim (e : String) :
    (∀ (request : HttpCall → Except String Verify) recipient params req,
        requestDataForVerify recipient params = Except.ok req →
        request ⟨"POST", path, some req⟩ = Except.error e →
        Create request recipient params = (Except.error e, [⟨"POST", path, some req⟩])) ∧
    (∀ (request : HttpCall → Except String Verify) id,
        request ⟨"GET", path ++ "/" ++ id, none⟩ = Except.error e →
        Read request id = (Except.error e, [⟨"GET", path ++ "/" ++ id, none⟩])) ∧
    (∀ (request : HttpCall → Except String Unit) id,
        request ⟨"DELETE", path ++ "/" ++ id, none⟩ = Except.error e →
        Delete request id = (Except.error e, [⟨"DELETE", path ++ "/" ++ id, none⟩])) ∧
    (∀ (request : HttpCall → Except String Verify) id token,
        request ⟨"GET", path ++ "/" ++ id ++ "?" ++ urlValuesEncode "token" token, none⟩
          = Except.error e →
        VerifyToken request id token
          = (Except.error e,
             [⟨"GET", path ++ "/" ++ id ++ "?" ++ urlValuesEncode "token" token, none⟩])) ∧
    (∀ (request : HttpCall → Except String VerifyMessage) id,
        request ⟨"GET", emailMessagesPath ++ "/" ++ id, none⟩ = Except.error e →
        ReadVerifyEmailMessage request id
          = (Except.error e, [⟨"GET", emailMessagesPath ++ "/" ++ id, none⟩])) := by
  refine ⟨?_, ?_, ?_, ?_, ?_⟩
  · intro request recipient params req h1 h2
    simp only [Create, h1, h2]
  · intro request id h
    simp only [Read, h]
  · intro request id h
    simp only [Delete, h]
  · intro request id token h
    simp only [VerifyToken, h]
  · intro request id h
    simp only [ReadVerifyEmailMessage, h]

/-- C9 witness: a transport that always fails with "boom" makes each of
the five operations return exactly the error "boom" after its single
call. -/
theorem C9_witness :
    Create (fun _ => Except.error "boom") "31612345678" none
      = (Except.error "boom", [⟨"POST", path, some { Recipient := "31612345678" }⟩]) ∧
    Read (fun _ => Except.error "boom") "id1"
      = (Except.error "boom", [⟨"GET", path ++ "/" ++ "id1", none⟩]) ∧
    Delete (fun _ => Except.error "boom") "id1"
      = (Except.error "boom", [⟨"DELETE", path ++ "/" ++ "id1", none⟩]) ∧
    VerifyToken (fun _ => Except.error "boom") "abc" "1234"
      = (Except.error "boom",
         [⟨"GET", path ++ "/" ++ "abc" ++ "?" ++ urlValuesEncode "token" "1234", none⟩]) ∧
    ReadVerifyEmailMessage (fun _ => Except.error "boom") "m1"
      = (Except.error "boom", [⟨"GET", emailMessagesPath ++ "/" ++ "m1", none⟩]) :=
  ⟨(C9_claim "boom").1 (fun _ => Except.error "boom") "31612345678" none
      { Recipient := "31612345678" } rfl rfl,
   (C9_claim "boom").2.1 (fun _ => Except.error "boom") "id1" rfl,
   (C9_claim "boom").2.2.1 (fun _ => Except.error "boom") "id1" rfl,
   (C9_claim "boom").2.2.2.1 (fun _ => Except.error "boom") "abc" "1234" rfl,
   (C9_claim "boom").2.2.2.2 (fun _ => Except.error "boom") "m1" rfl⟩

/-- C10: for every well-formed payload whose `recipient` field is absent
or JSON null, the dynamic value reaching the type switch is nil, so
decoding fails with the type error for the nil type; a successful decode
therefore needs a present, non-null recipient. -/
theorem C10_claim (w : verifyWrapper) (t : Verify)
    (h : w.Recipient = JsonValue.null) :
    Verify.unmarshalJSON (some t) w = Except.error "recipient is unknown type <nil>" := by
  simp only [Verify.unmarshalJSON]
  rw [h]
  rfl

/-- C10 witness: a payload with every field absent (in particular no
recipient) fails with the nil type error. -/
theorem C10_witness :
    Verify.unmarshalJSON (some {}) {} = Except.error "recipient is unknown type <nil>" :=
  C10_claim {} {} rfl

end verify
